import Mathlib

/-!
Verification development for the google-docs-mcp-docker repository.

The repository ships a Docker packaging of the google-docs-mcp server
together with a patched src/auth.ts.  The batched document-mutation
engine (range resolver, style request builder, operation translator,
index-drift tracker, batch executor) lives in the upstream server that
the Dockerfile clones at build time; its behaviour is documented in the
repository's README and INTEGRATION_SUMMARY and in the specification.
That part is therefore modelled from the spec below.  The OAuth module
src/auth.ts is present in the repository and is embedded directly.
-/

/- ===================================================================
   Part 1.  Batched document-mutation engine (modelled from the spec)
   =================================================================== -/

/-- Decidable equality for fallible results, so that concrete runs of the
embedded functions can be checked by evaluation. -/
instance {ε α : Type} [DecidableEq ε] [DecidableEq α] : DecidableEq (Except ε α) := fun a b =>
  match a, b with
  | .ok x, .ok y =>
    if h : x = y then .isTrue (by rw [h]) else .isFalse (fun hc => h (Except.ok.inj hc))
  | .error x, .error y =>
    if h : x = y then .isTrue (by rw [h]) else .isFalse (fun hc => h (Except.error.inj hc))
  | .ok _, .error _ => .isFalse (fun hc => Except.noConfusion hc)
  | .error _, .ok _ => .isFalse (fun hc => Except.noConfusion hc)

/-- Modelled from the spec: the sparse text style intent of section 3.
The translator source is not in the repository snapshot (only the
Dockerfile that clones it), so the record follows the spec field list:
absence of a field means leave unchanged. -/
structure TextStyleIntent where
  bold : Option Bool
  italic : Option Bool
  underline : Option Bool
  strikethrough : Option Bool
  fontSize : Option Nat
  fontFamily : Option String
  foregroundColor : Option String
  backgroundColor : Option String
  linkUrl : Option String
deriving DecidableEq

/-- Modelled from the spec: the sparse paragraph style intent of section 3. -/
structure ParagraphStyleIntent where
  alignment : Option String
  indentStart : Option Nat
  indentEnd : Option Nat
  spaceAbove : Option Nat
  spaceBelow : Option Nat
  namedStyleType : Option String
  keepWithNext : Option Bool
deriving DecidableEq

/-- Modelled from the spec: the field names present (non-absent) in a text
style intent; the source of the field mask of section 4.2. -/
def TextStyleIntent.presentFields (s : TextStyleIntent) : List String :=
  (if s.bold.isSome then ["bold"] else []) ++
  (if s.italic.isSome then ["italic"] else []) ++
  (if s.underline.isSome then ["underline"] else []) ++
  (if s.strikethrough.isSome then ["strikethrough"] else []) ++
  (if s.fontSize.isSome then ["fontSize"] else []) ++
  (if s.fontFamily.isSome then ["weightedFontFamily"] else []) ++
  (if s.foregroundColor.isSome then ["foregroundColor"] else []) ++
  (if s.backgroundColor.isSome then ["backgroundColor"] else []) ++
  (if s.linkUrl.isSome then ["link"] else [])

/-- Modelled from the spec: a text style intent is empty when no field is set. -/
def TextStyleIntent.isEmpty (s : TextStyleIntent) : Bool :=
  s.presentFields.isEmpty

/-- Modelled from the spec: the field names present in a paragraph style intent. -/
def ParagraphStyleIntent.presentFields (s : ParagraphStyleIntent) : List String :=
  (if s.alignment.isSome then ["alignment"] else []) ++
  (if s.indentStart.isSome then ["indentStart"] else []) ++
  (if s.indentEnd.isSome then ["indentEnd"] else []) ++
  (if s.spaceAbove.isSome then ["spaceAbove"] else []) ++
  (if s.spaceBelow.isSome then ["spaceBelow"] else []) ++
  (if s.namedStyleType.isSome then ["namedStyleType"] else []) ++
  (if s.keepWithNext.isSome then ["keepWithNext"] else [])

/-- Modelled from the spec: a paragraph style intent is empty when no field is set. -/
def ParagraphStyleIntent.isEmpty (s : ParagraphStyleIntent) : Bool :=
  s.presentFields.isEmpty

/-- Modelled from the spec: the targeting specification of section 3 used
by style operations. -/
inductive Target where
  | explicitRange (startIndex endIndex : Nat)
  | textSearch (text : String) (matchInstance : Nat)
  | containingParagraph (offset : Nat)
deriving DecidableEq

/-- Modelled from the spec: the tagged operation variant of section 3. -/
inductive Operation where
  | insertText (text : String) (index : Nat)
  | deleteRange (startIndex endIndex : Nat)
  | applyTextStyle (target : Target) (style : TextStyleIntent)
  | applyParagraphStyle (target : Target) (style : ParagraphStyleIntent)
  | insertTable (rows columns index : Nat)
  | insertPageBreak (index : Nat)
  | insertImage (source : String) (index : Nat)
deriving DecidableEq

/-- Modelled from the spec: the remote service's atomic update instruction.
Offsets are signed because drift correction is a signed adjustment. -/
inductive NativeRequest where
  | insertText (text : String) (index : Int)
  | deleteContentRange (startIndex endIndex : Int)
  | updateTextStyle (startIndex endIndex : Int) (style : TextStyleIntent) (fieldMask : String)
  | updateParagraphStyle (startIndex endIndex : Int) (style : ParagraphStyleIntent)
      (fieldMask : String)
  | insertTable (rows columns : Nat) (index : Int)
  | insertPageBreak (index : Int)
  | insertInlineImage (source : String) (index : Int)
deriving DecidableEq

/-- Modelled from the spec: the error kinds of section 7 raised during
validation and translation. -/
inductive OpError where
  | validationError
  | notFoundError
deriving DecidableEq

/-- Modelled from the spec: the document snapshot returned by the external
getDocument call of section 6: flattened tab text (positions are 1-based),
paragraph boundary ranges, and the document length. -/
structure Snapshot where
  content : List Char
  paragraphBoundaries : List (Nat × Nat)
  length : Nat
deriving DecidableEq

/-- Modelled from the spec: left-to-right scan of the flattened text for
non-overlapping literal occurrences of a pattern.  At cooldown 0 a
position is tested; on a match the next pattern-length minus one
positions are skipped, making the occurrence list non-overlapping. -/
def scan (pat : List Char) : List Char → Nat → Nat → List Nat
  | [], _, _ => []
  | c :: rest, i, 0 =>
    if pat.isPrefixOf (c :: rest)
    then i :: scan pat rest (i + 1) (pat.length - 1)
    else scan pat rest (i + 1) 0
  | _ :: rest, i, k + 1 => scan pat rest (i + 1) k

/-- Modelled from the spec: all non-overlapping, case-sensitive, literal
occurrences of a pattern in the tab's flattened text, as 1-based start
positions in document coordinates. -/
def findOccurrences (pat text : List Char) : List Nat := scan pat text 1 0

/-- Modelled from the spec: the range resolver of section 4.1, a pure
function of the target, the snapshot and the tab. -/
def resolve (target : Target) (snap : Snapshot) : Except OpError (Nat × Nat) :=
  match target with
  | .explicitRange s e =>
    if 1 ≤ s ∧ s < e ∧ e ≤ snap.length + 1 then .ok (s, e) else .error .validationError
  | .textSearch text k =>
    match (findOccurrences text.toList snap.content).get? (k - 1) with
    | some s => .ok (s, s + text.length)
    | none => .error .notFoundError
  | .containingParagraph off =>
    match snap.paragraphBoundaries.find? (fun p => decide (p.1 ≤ off) && decide (off < p.2)) with
    | some p => .ok (p.1, p.2)
    | none => .error .notFoundError

/-- Modelled from the spec: validity of a 6-digit hex color string of
section 4.2. -/
def isHexColor (s : String) : Bool :=
  s.length == 7 && s.toList.take 1 == ['#'] &&
    (s.toList.drop 1).all (fun c => c.isDigit || ('a' ≤ c && c ≤ 'f') || ('A' ≤ c && c ≤ 'F'))

/-- Modelled from the spec: the style request builder of section 4.2 for
text styles.  Rejects an entirely empty intent and invalid colors, and
computes the comma-joined field mask of present fields. -/
def buildUpdateTextStyle (startIndex endIndex : Int) (style : TextStyleIntent) :
    Except OpError NativeRequest :=
  if style.isEmpty then .error .validationError
  else if style.foregroundColor.any (fun c => ! isHexColor c) then .error .validationError
  else if style.backgroundColor.any (fun c => ! isHexColor c) then .error .validationError
  else .ok (.updateTextStyle startIndex endIndex style
    (String.intercalate "," style.presentFields))

/-- Modelled from the spec: the style request builder of section 4.2 for
paragraph styles. -/
def buildUpdateParagraphStyle (startIndex endIndex : Int) (style : ParagraphStyleIntent) :
    Except OpError NativeRequest :=
  if style.isEmpty then .error .validationError
  else .ok (.updateParagraphStyle startIndex endIndex style
    (String.intercalate "," style.presentFields))

/-- Modelled from the spec: the fixed, service-defined length contributed
to the document by an inserted table (a representative constant; no claim
depends on its value). -/
def tableInsertLength (rows columns : Nat) : Nat := rows * columns + rows + 2

/-- Modelled from the spec: the fixed length contributed by a page break. -/
def pageBreakInsertLength : Nat := 1

/-- Modelled from the spec: the fixed length contributed by an inline image. -/
def imageInsertLength : Nat := 1

/-- Modelled from the spec: one step of the operation translator of
section 4.3.  Drift is added to every offset of the operation being
translated; the returned drift adds the operation's own length change. -/
def translateOne (op : Operation) (snap : Snapshot) (drift : Int) :
    Except OpError (List NativeRequest × Int) :=
  match op with
  | .insertText text index =>
    .ok ([.insertText text ((index : Int) + drift)], drift + (text.length : Int))
  | .deleteRange s e =>
    if s = e then .error .validationError
    else .ok ([.deleteContentRange ((s : Int) + drift) ((e : Int) + drift)],
      drift - ((e : Int) - (s : Int)))
  | .applyTextStyle target style =>
    if style.isEmpty then .error .validationError
    else
      match resolve target snap with
      | .error e => .error e
      | .ok r =>
        match buildUpdateTextStyle ((r.1 : Int) + drift) ((r.2 : Int) + drift) style with
        | .error e => .error e
        | .ok req => .ok ([req], drift)
  | .applyParagraphStyle target style =>
    if style.isEmpty then .error .validationError
    else
      match resolve target snap with
      | .error e => .error e
      | .ok r =>
        match buildUpdateParagraphStyle ((r.1 : Int) + drift) ((r.2 : Int) + drift) style with
        | .error e => .error e
        | .ok req => .ok ([req], drift)
  | .insertTable rows columns index =>
    .ok ([.insertTable rows columns ((index : Int) + drift)],
      drift + (tableInsertLength rows columns : Int))
  | .insertPageBreak index =>
    .ok ([.insertPageBreak ((index : Int) + drift)], drift + (pageBreakInsertLength : Int))
  | .insertImage source index =>
    .ok ([.insertInlineImage source ((index : Int) + drift)], drift + (imageInsertLength : Int))

/-- Modelled from the spec: the translator loop of section 4.3, threading
the drift through the ordered operation list and failing fast on the
first error. -/
def translateFrom (snap : Snapshot) : List Operation → Int →
    Except OpError (List NativeRequest × Int)
  | [], drift => .ok ([], drift)
  | op :: rest, drift =>
    match translateOne op snap drift with
    | .error e => .error e
    | .ok (reqs, drift1) =>
      match translateFrom snap rest drift1 with
      | .error e => .error e
      | .ok (reqs2, drift2) => .ok (reqs ++ reqs2, drift2)

/-- Modelled from the spec: full batch translation starting at drift 0. -/
def translateBatch (ops : List Operation) (snap : Snapshot) :
    Except OpError (List NativeRequest × Int) :=
  translateFrom snap ops 0

/-- Modelled from the spec: the submission chunk size, fixed at 50. -/
def chunkSize : Nat := 50

/-- Modelled from the spec: the contractual limit of 500 operations per
bulk call. -/
def maxTotalOperations : Nat := 500

/-- Modelled from the spec: fuel-indexed splitting of a list into ordered
chunks of at most chunkSize elements; the fuel is always instantiated
with the list length, which suffices. -/
def chunkListF {α : Type} : Nat → List α → List (List α)
  | _, [] => []
  | 0, xs => [xs]
  | fuel + 1, x :: rest =>
    ((x :: rest).take chunkSize) :: chunkListF fuel ((x :: rest).drop chunkSize)

/-- Modelled from the spec: splitting the native request list into ordered
chunks of at most chunkSize requests, section 4.4. -/
def chunkList {α : Type} (xs : List α) : List (List α) := chunkListF xs.length xs

/-- Modelled from the spec: the aggregated outcome of section 4.4. -/
structure ExecutionResult where
  chunksSucceeded : Nat
  chunksTotal : Nat
  error : Option String
deriving DecidableEq

/-- Modelled from the spec: sequential submission of chunks to the remote
batch-update call; on the first failure the remaining chunks are not
submitted.  Returns the success count, the list of chunks actually
submitted, and the triggering error if any. -/
def runChunks (client : List NativeRequest → Except String Unit) :
    List (List NativeRequest) → Nat × List (List NativeRequest) × Option String
  | [] => (0, [], none)
  | c :: rest =>
    match client c with
    | .error e => (0, [c], some e)
    | .ok _ =>
      let r := runChunks client rest
      (r.1 + 1, c :: r.2.1, r.2.2)

/-- Modelled from the spec: the batch executor of section 4.4.  Also
returns the submission trace so that what was sent to the remote service
is observable. -/
def execute (client : List NativeRequest → Except String Unit) (reqs : List NativeRequest) :
    ExecutionResult × List (List NativeRequest) :=
  ({ chunksSucceeded := (runChunks client (chunkList reqs)).1,
     chunksTotal := (chunkList reqs).length,
     error := (runChunks client (chunkList reqs)).2.2 },
   (runChunks client (chunkList reqs)).2.1)

/-- Modelled from the spec: the bulk_update tool surface of section 6:
size validation before any network call, then translation, then chunked
execution.  The second component is the submission trace (empty means no
network call was made). -/
def bulkUpdate (client : List NativeRequest → Except String Unit)
    (ops : List Operation) (snap : Snapshot) :
    Except OpError ExecutionResult × List (List NativeRequest) :=
  if ops.length > maxTotalOperations then (.error .validationError, [])
  else
    match translateFrom snap ops 0 with
    | .error e => (.error e, [])
    | .ok (reqs, _) =>
      let r := execute client reqs
      (.ok r.1, r.2)

/-- Style and format operations, which change no document length. -/
def Operation.isStyleOp : Operation → Bool
  | .applyTextStyle _ _ => true
  | .applyParagraphStyle _ _ => true
  | _ => false

/- ===================================================================
   Part 2.  Embedding of src/auth.ts
   =================================================================== -/

/-- Embedded from src/auth.ts: the installed-or-web client key object read
from credentials.json. -/
structure ClientKey where
  client_id : String
  client_secret : String
  redirect_uris : Option (List String)
deriving DecidableEq

/-- Embedded from src/auth.ts: the parsed shape of credentials.json. -/
structure CredKeys where
  installed : Option ClientKey
  web : Option ClientKey
deriving DecidableEq

/-- Embedded from src/auth.ts: the token object returned by the OAuth
token exchange or stored in token.json. -/
structure Tokens where
  refresh_token : Option String
  access_token : Option String
deriving DecidableEq

/-- Embedded from src/auth.ts: the errors the module can raise or catch. -/
inductive AuthError where
  | fileNotFound
  | ioError
  | parseError
  | noClientSecrets
  | serviceAccountKeyNotFound
  | serviceAccountAuthFailed
  | oauthCallbackError
  | authenticationFailed
deriving DecidableEq

/-- Embedded from src/auth.ts: the external world the module interacts
with (environment variable, file reads, JSON parsing, the Google OAuth
endpoints), given as a deterministic oracle so each function becomes a
pure function of this record. -/
structure AuthEnv where
  serviceAccountPath : Option String
  readTokenFile : Except AuthError String
  readCredentialsFile : Except AuthError String
  readServiceAccountFile : String → Except AuthError String
  parseTokens : String → Except AuthError Tokens
  parseCredKeys : String → Except AuthError CredKeys
  parseServiceAccountKey : String → Except AuthError (String × String)
  jwtAuthorize : String → String → Except AuthError Unit
  authCodeResult : Except AuthError String
  getToken : String → Except AuthError Tokens

/-- Embedded from src/auth.ts: the loopback redirect URI built from
LOOPBACK_PORT = 3000. -/
def loopbackRedirectUri : String := "http://localhost:3000"

/-- Embedded from src/auth.ts: the OAuth2 client object with its
credentials set. -/
structure OAuth2Client where
  clientId : String
  clientSecret : String
  redirectUri : String
  credentials : Tokens
deriving DecidableEq

/-- Embedded from src/auth.ts: the result of loadClientSecrets, including
the quirk that client_type is derived from keys.web alone. -/
structure ClientSecrets where
  client_id : String
  client_secret : String
  redirect_uris : List String
  client_type : String
deriving DecidableEq

/-- Embedded from src/auth.ts (loadClientSecrets): read credentials.json,
parse it, take keys.installed or else keys.web, failing when neither is
present. -/
def loadClientSecrets (env : AuthEnv) : Except AuthError ClientSecrets :=
  match env.readCredentialsFile with
  | .error e => .error e
  | .ok content =>
    match env.parseCredKeys content with
    | .error e => .error e
    | .ok keys =>
      match keys.installed.or keys.web with
      | none => .error .noClientSecrets
      | some key =>
        .ok { client_id := key.client_id, client_secret := key.client_secret,
              redirect_uris := key.redirect_uris.getD ["http://localhost"],
              client_type := if keys.web.isSome then "web" else "installed" }

/-- Embedded from src/auth.ts (loadSavedCredentialsIfExist): the body of
the try block, before the catch that maps every failure to null. -/
def loadSavedCredentialsIfExistE (env : AuthEnv) : Except AuthError OAuth2Client :=
  match env.readTokenFile with
  | .error e => .error e
  | .ok content =>
    match env.parseTokens content with
    | .error e => .error e
    | .ok credentials =>
      match loadClientSecrets env with
      | .error e => .error e
      | .ok s =>
        .ok { clientId := s.client_id, clientSecret := s.client_secret,
              redirectUri := loopbackRedirectUri, credentials := credentials }

/-- Embedded from src/auth.ts (loadSavedCredentialsIfExist): any failure
inside the try block is caught and turned into null. -/
def loadSavedCredentialsIfExist (env : AuthEnv) : Option OAuth2Client :=
  match loadSavedCredentialsIfExistE env with
  | .ok c => some c
  | .error _ => none

/-- Embedded from src/auth.ts (saveCredentials): the payload written to
token.json; the structure has exactly the four serialized fields. -/
structure TokenFilePayload where
  type : String
  client_id : String
  client_secret : String
  refresh_token : Option String
deriving DecidableEq

/-- Embedded from src/auth.ts (saveCredentials): re-load the client
secrets and produce the payload written to token.json. -/
def saveCredentials (env : AuthEnv) (client : OAuth2Client) :
    Except AuthError TokenFilePayload :=
  match loadClientSecrets env with
  | .error e => .error e
  | .ok s =>
    .ok { type := "authorized_user", client_id := s.client_id,
          client_secret := s.client_secret,
          refresh_token := client.credentials.refresh_token }

/-- Embedded from src/auth.ts: the two kinds of authorized client
authorize can return. -/
inductive AuthClient where
  | oauth (c : OAuth2Client)
  | jwt (email key : String)
deriving DecidableEq

/-- Embedded from src/auth.ts (authorizeWithServiceAccount): read and
parse the key file at SERVICE_ACCOUNT_PATH, build the JWT client and
authorize it; an ENOENT read error is reported distinctly. -/
def authorizeWithServiceAccount (env : AuthEnv) (path : String) :
    Except AuthError AuthClient :=
  match env.readServiceAccountFile path with
  | .error .fileNotFound => .error .serviceAccountKeyNotFound
  | .error _ => .error .serviceAccountAuthFailed
  | .ok content =>
    match env.parseServiceAccountKey content with
    | .error _ => .error .serviceAccountAuthFailed
    | .ok (email, key) =>
      match env.jwtAuthorize email key with
      | .error _ => .error .serviceAccountAuthFailed
      | .ok _ => .ok (.jwt email key)

/-- Embedded from src/auth.ts: observable steps of the authentication
flow, used to state which flows are started in which configuration. -/
inductive AuthEvent where
  | serviceAccountAuth
  | loadSavedCredentials
  | loopbackServerStart
  | tokenExchange
deriving DecidableEq

/-- Embedded from src/auth.ts: the result of a flow together with the
observable events and the token-file writes it performed. -/
structure FlowOutcome where
  result : Except AuthError AuthClient
  events : List AuthEvent
  writes : List TokenFilePayload
deriving DecidableEq

/-- Embedded from src/auth.ts (authenticate): load the client secrets,
start the loopback callback server, exchange the code for tokens, and
save the credentials only when a refresh token was returned; failures of
the exchange or the save are caught and rethrown as a generic
authentication failure. -/
def authenticate (env : AuthEnv) : FlowOutcome :=
  match loadClientSecrets env with
  | .error e => { result := .error e, events := [], writes := [] }
  | .ok s =>
    match env.authCodeResult with
    | .error e =>
      { result := .error e, events := [AuthEvent.loopbackServerStart], writes := [] }
    | .ok code =>
      match env.getToken code with
      | .error _ =>
        { result := .error .authenticationFailed,
          events := [AuthEvent.loopbackServerStart, AuthEvent.tokenExchange], writes := [] }
      | .ok tokens =>
        let client : OAuth2Client :=
          { clientId := s.client_id, clientSecret := s.client_secret,
            redirectUri := loopbackRedirectUri, credentials := tokens }
        match tokens.refresh_token with
        | some _ =>
          match saveCredentials env client with
          | .ok payload =>
            { result := .ok (.oauth client),
              events := [AuthEvent.loopbackServerStart, AuthEvent.tokenExchange],
              writes := [payload] }
          | .error _ =>
            { result := .error .authenticationFailed,
              events := [AuthEvent.loopbackServerStart, AuthEvent.tokenExchange],
              writes := [] }
        | none =>
          { result := .ok (.oauth client),
            events := [AuthEvent.loopbackServerStart, AuthEvent.tokenExchange],
            writes := [] }

/-- Embedded from src/auth.ts (authorize): dispatch on the presence of
SERVICE_ACCOUNT_PATH; otherwise try the saved credentials and fall back
to the interactive flow. -/
def authorize (env : AuthEnv) : FlowOutcome :=
  match env.serviceAccountPath with
  | some p =>
    { result := authorizeWithServiceAccount env p,
      events := [AuthEvent.serviceAccountAuth], writes := [] }
  | none =>
    match loadSavedCredentialsIfExist env with
    | some c =>
      { result := .ok (.oauth c), events := [AuthEvent.loadSavedCredentials], writes := [] }
    | none =>
      let f := authenticate env
      { result := f.result, events := AuthEvent.loadSavedCredentials :: f.events,
        writes := f.writes }

/- ===================================================================
   Part 3.  Concrete instances used to exercise the model
   =================================================================== -/

/-- An empty document snapshot. -/
def emptySnap : Snapshot := { content := [], paragraphBoundaries := [], length := 0 }

/-- The snapshot of the specification's text-search example. -/
def conclusionSnap : Snapshot :=
  { content := "See Conclusion details and Conclusion again".toList,
    paragraphBoundaries := [(1, 44)], length := 43 }

/-- A batch of 120 native requests for exercising the chunking. -/
def witReqs : List NativeRequest :=
  (List.range 120).map (fun j => NativeRequest.insertPageBreak (j : Int))

/-- A remote client that rejects exactly the chunk beginning with request
number 50 (the second chunk of witReqs). -/
def witClient : List NativeRequest → Except String Unit := fun c =>
  match c.head? with
  | some (NativeRequest.insertPageBreak j) => if j = 50 then .error "quota" else .ok ()
  | _ => .ok ()

/-- A batch of 501 operations, one over the contractual limit. -/
def ops501 : List Operation := List.replicate 501 (Operation.insertPageBreak 1)

/-- A text style intent setting only bold. -/
def boldIntent : TextStyleIntent :=
  { bold := some true, italic := none, underline := none, strikethrough := none,
    fontSize := none, fontFamily := none, foregroundColor := none,
    backgroundColor := none, linkUrl := none }

/-- A paragraph style intent setting only the alignment. -/
def centerIntent : ParagraphStyleIntent :=
  { alignment := some "CENTER", indentStart := none, indentEnd := none,
    spaceAbove := none, spaceBelow := none, namedStyleType := none, keepWithNext := none }

/-- A text style intent with no fields set. -/
def emptyTextIntent : TextStyleIntent :=
  { bold := none, italic := none, underline := none, strikethrough := none,
    fontSize := none, fontFamily := none, foregroundColor := none,
    backgroundColor := none, linkUrl := none }

/-- A paragraph style intent with no fields set. -/
def emptyParaIntent : ParagraphStyleIntent :=
  { alignment := none, indentStart := none, indentEnd := none,
    spaceAbove := none, spaceBelow := none, namedStyleType := none, keepWithNext := none }

/-- A two-character snapshot for style batches. -/
def styleSnap : Snapshot :=
  { content := "ab".toList, paragraphBoundaries := [(1, 3)], length := 2 }

/-- A batch consisting only of style operations. -/
def styleOps : List Operation :=
  [Operation.applyTextStyle (Target.explicitRange 1 2) boldIntent,
   Operation.applyParagraphStyle (Target.containingParagraph 1) centerIntent]

/-- The native requests produced by translating styleOps on styleSnap. -/
def styleReqs : List NativeRequest :=
  [NativeRequest.updateTextStyle 1 2 boldIntent "bold",
   NativeRequest.updateParagraphStyle 1 3 centerIntent "alignment"]

/-- A sample installed client key. -/
def demoKey : ClientKey :=
  { client_id := "id-1", client_secret := "secret-1", redirect_uris := none }

/-- The client secrets loadClientSecrets derives from demoKey. -/
def demoSecrets : ClientSecrets :=
  { client_id := "id-1", client_secret := "secret-1",
    redirect_uris := ["http://localhost"], client_type := "installed" }

/-- Sample tokens carrying a refresh token. -/
def demoTokens : Tokens := { refresh_token := some "refresh-1", access_token := some "access-1" }

/-- Sample tokens without a refresh token. -/
def demoTokensNoRefresh : Tokens := { refresh_token := none, access_token := some "access-1" }

/-- A world with SERVICE_ACCOUNT_PATH set and every external call succeeding. -/
def envSvc : AuthEnv :=
  { serviceAccountPath := some "/key.json",
    readTokenFile := .ok "token-json",
    readCredentialsFile := .ok "creds-json",
    readServiceAccountFile := fun _ => .ok "sa-json",
    parseTokens := fun _ => .ok demoTokens,
    parseCredKeys := fun _ => .ok { installed := some demoKey, web := none },
    parseServiceAccountKey := fun _ => .ok ("sa-email", "sa-key"),
    jwtAuthorize := fun _ _ => .ok (),
    authCodeResult := .ok "auth-code",
    getToken := fun _ => .ok demoTokens }

/-- The same world without SERVICE_ACCOUNT_PATH: a readable token.json. -/
def envSaved : AuthEnv := { envSvc with serviceAccountPath := none }

/-- No SERVICE_ACCOUNT_PATH and a missing token.json: the interactive flow runs. -/
def envFresh : AuthEnv :=
  { envSvc with serviceAccountPath := none, readTokenFile := .error .fileNotFound }

/-- Like envFresh but the token exchange returns no refresh token. -/
def envNoRefresh : AuthEnv := { envFresh with getToken := fun _ => .ok demoTokensNoRefresh }

/-- The client loadSavedCredentialsIfExist builds in envSaved. -/
def savedClient : OAuth2Client :=
  { clientId := "id-1", clientSecret := "secret-1",
    redirectUri := loopbackRedirectUri, credentials := demoTokens }

/-- The token-file payload written by the interactive flow in envFresh. -/
def tokenPayload : TokenFilePayload :=
  { type := "authorized_user", client_id := "id-1", client_secret := "secret-1",
    refresh_token := some "refresh-1" }
/- ===================================================================
   Part 4.  Helper lemmas about the engine model
   =================================================================== -/

theorem scan_ge (pat : List Char) (t : List Char) (i k : Nat) :
    ∀ s ∈ scan pat t i k, i + k ≤ s := by
  induction t generalizing i k with
  | nil => intro s hs; simp [scan] at hs
  | cons c rest ih =>
    intro s hs
    cases k with
    | zero =>
      by_cases hpre : pat.isPrefixOf (c :: rest) = true
      · rw [scan, if_pos hpre] at hs
        rcases List.mem_cons.1 hs with hs | hs
        · omega
        · have := ih (i + 1) (pat.length - 1) s hs; omega
      · rw [scan, if_neg hpre] at hs
        have := ih (i + 1) 0 s hs; omega
    | succ k =>
      rw [scan] at hs
      have := ih (i + 1) k s hs; omega

theorem scan_sound (pat : List Char) (t : List Char) (i k : Nat) :
    ∀ s ∈ scan pat t i k, pat.isPrefixOf (t.drop (s - i)) = true := by
  induction t generalizing i k with
  | nil => intro s hs; simp [scan] at hs
  | cons c rest ih =>
    intro s hs
    cases k with
    | zero =>
      by_cases hpre : pat.isPrefixOf (c :: rest) = true
      · rw [scan, if_pos hpre] at hs
        rcases List.mem_cons.1 hs with hs | hs
        · subst hs; simpa using hpre
        · have hge := scan_ge pat rest (i + 1) (pat.length - 1) s hs
          have hrec := ih (i + 1) (pat.length - 1) s hs
          have hstep : s - i = (s - (i + 1)) + 1 := by omega
          rw [hstep, List.drop_succ_cons]
          exact hrec
      · rw [scan, if_neg hpre] at hs
        have hge := scan_ge pat rest (i + 1) 0 s hs
        have hrec := ih (i + 1) 0 s hs
        have hstep : s - i = (s - (i + 1)) + 1 := by omega
        rw [hstep, List.drop_succ_cons]
        exact hrec
    | succ k =>
      rw [scan] at hs
      have hge := scan_ge pat rest (i + 1) k s hs
      have hrec := ih (i + 1) k s hs
      have hstep : s - i = (s - (i + 1)) + 1 := by omega
      rw [hstep, List.drop_succ_cons]
      exact hrec

theorem scan_chain (pat : List Char) (t : List Char) (i k : Nat) :
    List.Chain' (fun a b => a + pat.length ≤ b) (scan pat t i k) := by
  induction t generalizing i k with
  | nil => simp [scan]
  | cons c rest ih =>
    cases k with
    | zero =>
      by_cases hpre : pat.isPrefixOf (c :: rest) = true
      · rw [scan, if_pos hpre, List.chain'_cons']
        refine ⟨?_, ih (i + 1) (pat.length - 1)⟩
        intro h hh
        have hmem := List.mem_of_mem_head? hh
        have := scan_ge pat rest (i + 1) (pat.length - 1) h hmem
        omega
      · rw [scan, if_neg hpre]
        exact ih (i + 1) 0
    | succ k =>
      rw [scan]
      exact ih (i + 1) k

theorem chunkListF_flatten {α : Type} (fuel : Nat) (xs : List α) :
    (chunkListF fuel xs).flatten = xs := by
  induction fuel generalizing xs with
  | zero => cases xs <;> simp [chunkListF]
  | succ fuel ih =>
    cases xs with
    | nil => simp [chunkListF]
    | cons x rest =>
      rw [chunkListF]
      simp only [List.flatten_cons, ih, List.take_append_drop]

theorem chunkListF_le {α : Type} (fuel : Nat) (xs : List α) (hf : xs.length ≤ fuel) :
    ∀ c ∈ chunkListF fuel xs, c.length ≤ chunkSize := by
  induction fuel generalizing xs with
  | zero =>
    cases xs with
    | nil => simp [chunkListF]
    | cons x rest => simp at hf
  | succ fuel ih =>
    cases xs with
    | nil => simp [chunkListF]
    | cons x rest =>
      rw [chunkListF]
      intro c hc
      rcases List.mem_cons.1 hc with hc | hc
      · subst hc
        simp [List.length_take]
      · refine ih _ ?_ c hc
        simp only [List.length_drop, List.length_cons]
        simp only [List.length_cons] at hf
        simp only [chunkSize]
        omega

theorem runChunks_first_failure (client : List NativeRequest → Except String Unit)
    (e : String) :
    ∀ (chunks : List (List NativeRequest)) (i : Nat) (h : i < chunks.length),
      (∀ c ∈ chunks.take i, client c = .ok ()) →
      client (chunks.get ⟨i, h⟩) = .error e →
      runChunks client chunks = (i, chunks.take (i + 1), some e) := by
  intro chunks
  induction chunks with
  | nil => intro i h; simp at h
  | cons c rest ih =>
    intro i h hok hfail
    cases i with
    | zero =>
      simp only [List.get] at hfail
      rw [runChunks, hfail]
      simp
    | succ i =>
      have hc : client c = Except.ok () := by
        apply hok
        simp [List.take_succ_cons]
      have hrest := ih i (by simpa using h)
        (fun d hd => hok d (by simp [List.take_succ_cons, hd]))
        (by simpa using hfail)
      rw [runChunks, hc, hrest]
      simp [List.take_succ_cons]

theorem translateOne_style_drift (op : Operation) (snap : Snapshot) (d : Int)
    (hsty : op.isStyleOp = true) :
    ∀ reqs d2, translateOne op snap d = .ok (reqs, d2) → d2 = d := by
  intro reqs d2 h
  cases op with
  | applyTextStyle target style =>
    rw [translateOne] at h
    split at h
    · exact absurd h (by simp)
    · split at h
      · exact absurd h (by simp)
      · split at h
        · exact absurd h (by simp)
        · exact (Prod.mk.injEq _ _ _ _ ▸ (Except.ok.injEq _ _ ▸ h)).2.symm ▸ rfl
  | applyParagraphStyle target style =>
    rw [translateOne] at h
    split at h
    · exact absurd h (by simp)
    · split at h
      · exact absurd h (by simp)
      · split at h
        · exact absurd h (by simp)
        · exact (Prod.mk.injEq _ _ _ _ ▸ (Except.ok.injEq _ _ ▸ h)).2.symm ▸ rfl
  | insertText text index => simp [Operation.isStyleOp] at hsty
  | deleteRange s e => simp [Operation.isStyleOp] at hsty
  | insertTable rows columns index => simp [Operation.isStyleOp] at hsty
  | insertPageBreak index => simp [Operation.isStyleOp] at hsty
  | insertImage source index => simp [Operation.isStyleOp] at hsty

theorem translateFrom_style_drift (snap : Snapshot) :
    ∀ (ops : List Operation), (∀ op ∈ ops, op.isStyleOp = true) →
      ∀ (d : Int) (reqs : List NativeRequest) (d2 : Int),
        translateFrom snap ops d = .ok (reqs, d2) → d2 = d := by
  intro ops
  induction ops with
  | nil =>
    intro _ d reqs d2 h
    rw [translateFrom] at h
    exact ((Prod.mk.injEq _ _ _ _ ▸ (Except.ok.injEq _ _ ▸ h)).2).symm
  | cons op rest ih =>
    intro hsty d reqs d2 h
    rw [translateFrom] at h
    split at h
    · exact absurd h (by simp)
    · next reqs1 drift1 heq =>
      have h1 : drift1 = d :=
        translateOne_style_drift op snap d (hsty op (by simp)) reqs1 drift1 heq
      split at h
      · exact absurd h (by simp)
      · next reqs2 drift2 heq2 =>
        have h2 : drift2 = drift1 := ih (fun o ho => hsty o (by simp [ho])) drift1 reqs2 drift2 heq2
        have h3 : d2 = drift2 := ((Prod.mk.injEq _ _ _ _ ▸ (Except.ok.injEq _ _ ▸ h)).2).symm
        omega


/- ===================================================================
   Part 5.  Claim theorems
   =================================================================== -/

/-- C1: at current drift d, translating an InsertText emits a native request
at index + d and leaves drift d + length(text); translating a DeleteRange
with a non-empty range emits native indices start + d and end + d and leaves
drift d - (end - start).  Drift is applied to the operation being translated
before its own length change is added, so a length change only affects the
operations that follow. -/
theorem driftTracker_insert_delete (snap : Snapshot) (text : String) (index : Nat)
    (s e : Nat) (d : Int) (hne : s ≠ e) :
    translateOne (.insertText text index) snap d
      = .ok ([.insertText text ((index : Int) + d)], d + (text.length : Int)) ∧
    translateOne (.deleteRange s e) snap d
      = .ok ([.deleteContentRange ((s : Int) + d) ((e : Int) + d)],
             d - ((e : Int) - (s : Int))) := by
  constructor
  · rfl
  · simp only [translateOne]
    rw [if_neg hne]

/-- Witness for C1, including the specification's worked example: on the
batch InsertText("AB", 1) then DeleteRange(1, 2), the insert is emitted at
index 1 and moves drift to 2, and the delete is emitted at the shifted
indices 3 and 4. -/
theorem driftTracker_insert_delete_witness :
    (1 : Nat) ≠ 2 ∧
    translateOne (.insertText "AB" 1) emptySnap 0 = .ok ([.insertText "AB" 1], 2) ∧
    translateOne (.deleteRange 1 2) emptySnap 2 = .ok ([.deleteContentRange 3 4], 1) ∧
    translateBatch [.insertText "AB" 1, .deleteRange 1 2] emptySnap
      = .ok ([.insertText "AB" 1, .deleteContentRange 3 4], 1) := by
  refine ⟨by decide, ?_, ?_, by decide⟩
  · have h := (driftTracker_insert_delete emptySnap "AB" 1 1 2 0 (by decide)).1
    rw [h]; decide
  · have h := (driftTracker_insert_delete emptySnap "AB" 1 1 2 2 (by decide)).2
    rw [h]; decide

/-- C2: the batch executor splits the native requests into ordered chunks of
at most 50, submits them sequentially, and on the first failing chunk stops:
the result reports the number of chunks that succeeded before the failure,
the original chunk total and the triggering error, and the chunks after the
failing one are never submitted (the submission trace stops at the failing
chunk). -/
theorem batchExecutor_chunk_failure (client : List NativeRequest → Except String Unit)
    (reqs : List NativeRequest) (i : Nat) (e : String)
    (h : i < (chunkList reqs).length)
    (hok : ∀ c ∈ (chunkList reqs).take i, client c = .ok ())
    (hfail : client ((chunkList reqs).get ⟨i, h⟩) = .error e) :
    (∀ c ∈ chunkList reqs, c.length ≤ chunkSize) ∧
    (chunkList reqs).flatten = reqs ∧
    execute client reqs =
      ({ chunksSucceeded := i, chunksTotal := (chunkList reqs).length, error := some e },
       (chunkList reqs).take (i + 1)) := by
  refine ⟨chunkListF_le reqs.length reqs le_rfl, chunkListF_flatten reqs.length reqs, ?_⟩
  have hr := runChunks_first_failure client e (chunkList reqs) i h hok hfail
  simp only [execute, hr]

set_option maxRecDepth 40000 in
/-- Witness for C2: 120 native requests yield 3 chunks; with a client that
rejects the second chunk, one chunk succeeds, the total stays 3, the error
is reported, and only the first two chunks were submitted. -/
theorem batchExecutor_chunk_failure_witness :
    1 < (chunkList witReqs).length ∧
    (chunkList witReqs).length = 3 ∧
    execute witClient witReqs =
      ({ chunksSucceeded := 1, chunksTotal := (chunkList witReqs).length,
         error := some "quota" },
       (chunkList witReqs).take 2) := by
  refine ⟨by decide, by decide, ?_⟩
  exact (batchExecutor_chunk_failure witClient witReqs 1 "quota"
    (by decide) (by decide) (by decide)).2.2

/-- C3: TextSearch resolution scans the tab's flattened text for all
non-overlapping, case-sensitive, literal occurrences of the text; with
fewer than matchInstance occurrences it fails with NotFoundError, otherwise
it returns the half-open range of the matchInstance-th occurrence counted
1-based from the start.  Every reported occurrence really carries the
searched text at its position, and successive occurrences are at least the
text's length apart (non-overlapping). -/
theorem rangeResolver_textSearch (snap : Snapshot) (text : String) (k : Nat)
    (hk : 1 ≤ k) :
    ((findOccurrences text.toList snap.content).length < k →
      resolve (.textSearch text k) snap = .error .notFoundError) ∧
    (∀ h : k - 1 < (findOccurrences text.toList snap.content).length,
      resolve (.textSearch text k) snap
        = .ok ((findOccurrences text.toList snap.content).get ⟨k - 1, h⟩,
               (findOccurrences text.toList snap.content).get ⟨k - 1, h⟩ + text.length)) ∧
    (∀ s ∈ findOccurrences text.toList snap.content,
      1 ≤ s ∧ text.toList.isPrefixOf (snap.content.drop (s - 1)) = true) ∧
    List.Chain' (fun a b => a + text.toList.length ≤ b)
      (findOccurrences text.toList snap.content) := by
  refine ⟨?_, ?_, ?_, scan_chain text.toList snap.content 1 0⟩
  · intro hlt
    have hnone : (findOccurrences text.toList snap.content).get? (k - 1) = none :=
      List.get?_eq_none.2 (by omega)
    simp only [resolve]
    rw [hnone]
  · intro h
    have hsome := List.get?_eq_get h
    simp only [resolve]
    rw [hsome]
  · intro s hs
    exact ⟨by have := scan_ge text.toList snap.content 1 0 s hs; omega,
           scan_sound text.toList snap.content 1 0 s hs⟩

/-- Witness for C3, the specification's example: in a document containing
"See Conclusion details and Conclusion again", instance 2 of "Conclusion"
resolves to the second occurrence's range and instance 3 fails with
NotFoundError. -/
theorem rangeResolver_textSearch_witness :
    ((1 : Nat) ≤ 2 ∧
      resolve (.textSearch "Conclusion" 2) conclusionSnap = .ok (28, 38)) ∧
    ((1 : Nat) ≤ 3 ∧
      resolve (.textSearch "Conclusion" 3) conclusionSnap = .error .notFoundError) := by
  constructor
  · refine ⟨by decide, ?_⟩
    have h := (rangeResolver_textSearch conclusionSnap "Conclusion" 2 (by decide)).2.1
      (by decide)
    rw [h]; decide
  · refine ⟨by decide, ?_⟩
    exact (rangeResolver_textSearch conclusionSnap "Conclusion" 3 (by decide)).1 (by decide)

/-- C4: a bulk_update call with more than 500 operations fails with
ValidationError before any network call: the submission trace is empty, so
zero chunks were submitted and the batch is rejected wholesale. -/
theorem bulkUpdate_rejects_oversized (client : List NativeRequest → Except String Unit)
    (ops : List Operation) (snap : Snapshot) (h : ops.length > maxTotalOperations) :
    bulkUpdate client ops snap = (.error .validationError, []) := by
  simp only [bulkUpdate]
  rw [if_pos h]

set_option maxRecDepth 40000 in
/-- Witness for C4: a batch of 501 operations is rejected with
ValidationError and nothing is submitted. -/
theorem bulkUpdate_rejects_oversized_witness :
    ops501.length > maxTotalOperations ∧
    bulkUpdate witClient ops501 emptySnap = (.error .validationError, []) :=
  ⟨by decide, bulkUpdate_rejects_oversized witClient ops501 emptySnap (by decide)⟩

/-- C5: for a batch consisting only of style operations (which change no
document length) the drift is 0 before, during and after translation: every
successfully translated prefix of such a batch ends at drift 0. -/
theorem style_batch_drift_zero (snap : Snapshot) (ops pre suf : List Operation)
    (hsty : ∀ op ∈ ops, op.isStyleOp = true)
    (hsplit : ops = pre ++ suf)
    (reqs : List NativeRequest) (d : Int)
    (h : translateFrom snap pre 0 = .ok (reqs, d)) :
    d = 0 := by
  have hpre : ∀ op ∈ pre, op.isStyleOp = true := by
    intro op hop
    exact hsty op (by rw [hsplit]; exact List.mem_append_left suf hop)
  exact translateFrom_style_drift snap pre hpre 0 reqs d h

/-- Witness for C5: a two-operation pure-style batch translates successfully
and ends at drift 0. -/
theorem style_batch_drift_zero_witness :
    styleOps.all Operation.isStyleOp = true ∧
    translateFrom styleSnap styleOps 0 = .ok (styleReqs, 0) ∧
    (0 : Int) = 0 :=
  ⟨by decide, by decide,
   style_batch_drift_zero styleSnap styleOps styleOps [] (by decide) (by simp)
     styleReqs 0 (by decide)⟩

/-- C6: a style operation whose intent has no fields set fails with
ValidationError for every target and snapshot, hence before any range
resolution is attempted: even a target whose resolution would fail with
NotFoundError still yields ValidationError, and an empty intent is never
silently translated into a no-op request. -/
theorem empty_style_intent_validation (snap : Snapshot) (target : Target)
    (ts : TextStyleIntent) (ps : ParagraphStyleIntent) (d : Int)
    (hts : ts.isEmpty = true) (hps : ps.isEmpty = true) :
    translateOne (.applyTextStyle target ts) snap d = .error .validationError ∧
    translateOne (.applyParagraphStyle target ps) snap d = .error .validationError := by
  constructor
  · simp only [translateOne]
    rw [if_pos hts]
  · simp only [translateOne]
    rw [if_pos hps]

/-- Witness for C6: with an empty intent and a target that does not even
resolve (its own resolution fails with NotFoundError), the style operation
nevertheless fails with ValidationError. -/
theorem empty_style_intent_validation_witness :
    emptyTextIntent.isEmpty = true ∧
    emptyParaIntent.isEmpty = true ∧
    resolve (.textSearch "missing" 1) emptySnap = .error .notFoundError ∧
    translateOne (.applyTextStyle (.textSearch "missing" 1) emptyTextIntent) emptySnap 0
      = .error .validationError ∧
    translateOne (.applyParagraphStyle (.textSearch "missing" 1) emptyParaIntent) emptySnap 0
      = .error .validationError := by
  refine ⟨by decide, by decide, by decide, ?_, ?_⟩
  · exact (empty_style_intent_validation emptySnap (.textSearch "missing" 1)
      emptyTextIntent emptyParaIntent 0 (by decide) (by decide)).1
  · exact (empty_style_intent_validation emptySnap (.textSearch "missing" 1)
      emptyTextIntent emptyParaIntent 0 (by decide) (by decide)).2

/-- C7: an InsertText with the empty string is accepted and still emits one
native request with zero length effect and zero drift contribution, while a
DeleteRange with start = end fails validation instead of being emitted. -/
theorem empty_range_boundary (snap : Snapshot) (index s : Nat) (d : Int) :
    translateOne (.insertText "" index) snap d
      = .ok ([.insertText "" ((index : Int) + d)], d) ∧
    translateOne (.deleteRange s s) snap d = .error .validationError := by
  constructor
  · simp [translateOne]
  · simp [translateOne]

/-- C8: authorize dispatches on SERVICE_ACCOUNT_PATH: when it is set,
service-account authentication is attempted and neither the saved-credential
load nor the loopback flow is started; when it is unset, a client loaded
from a readable token.json is returned directly (no loopback server), and
the interactive flow runs exactly when no saved credentials could be
loaded. -/
theorem authorize_dispatch (env : AuthEnv) :
    (∀ p, env.serviceAccountPath = some p →
      authorize env = { result := authorizeWithServiceAccount env p,
                        events := [AuthEvent.serviceAccountAuth], writes := [] } ∧
      AuthEvent.loopbackServerStart ∉ (authorize env).events ∧
      AuthEvent.loadSavedCredentials ∉ (authorize env).events) ∧
    (env.serviceAccountPath = none →
      (∀ c, loadSavedCredentialsIfExist env = some c →
        authorize env = { result := .ok (.oauth c),
                          events := [AuthEvent.loadSavedCredentials], writes := [] } ∧
        AuthEvent.loopbackServerStart ∉ (authorize env).events) ∧
      (loadSavedCredentialsIfExist env = none →
        (authorize env).result = (authenticate env).result ∧
        (authorize env).events
          = AuthEvent.loadSavedCredentials :: (authenticate env).events)) := by
  constructor
  · intro p hp
    have ha : authorize env =
        { result := authorizeWithServiceAccount env p,
          events := [AuthEvent.serviceAccountAuth], writes := [] } := by
      simp only [authorize, hp]
    refine ⟨ha, ?_, ?_⟩ <;> rw [ha] <;> simp
  · intro hp
    constructor
    · intro c hc
      have ha : authorize env =
          { result := .ok (.oauth c),
            events := [AuthEvent.loadSavedCredentials], writes := [] } := by
        simp only [authorize, hp, hc]
      refine ⟨ha, ?_⟩
      rw [ha]; simp
    · intro hc
      have ha : authorize env =
          { result := (authenticate env).result,
            events := AuthEvent.loadSavedCredentials :: (authenticate env).events,
            writes := (authenticate env).writes } := by
        simp only [authorize, hp, hc]
      rw [ha]
      exact ⟨rfl, rfl⟩

/-- Witness for C8: with a service-account path set the JWT route is taken;
with it unset and a readable token.json the saved client is returned; with
it unset and no token.json the interactive flow's result is returned. -/
theorem authorize_dispatch_witness :
    authorize envSvc = { result := authorizeWithServiceAccount envSvc "/key.json",
                         events := [AuthEvent.serviceAccountAuth], writes := [] } ∧
    authorize envSaved = { result := .ok (.oauth savedClient),
                           events := [AuthEvent.loadSavedCredentials], writes := [] } ∧
    (authorize envFresh).result = (authenticate envFresh).result := by
  refine ⟨?_, ?_, ?_⟩
  · exact ((authorize_dispatch envSvc).1 "/key.json" rfl).1
  · exact (((authorize_dispatch envSaved).2 rfl).1 savedClient rfl).1
  · exact ((((authorize_dispatch envFresh).2 rfl).2) rfl).1

/-- C9: loadSavedCredentialsIfExist never propagates a failure: whenever
reading token.json fails, or its contents fail to parse, or the client
secrets cannot be loaded, it returns null; consequently, with no service
account path, authorize proceeds to the interactive authentication flow
instead of failing. -/
theorem loadSavedCredentials_failure_null (env : AuthEnv)
    (hfail : (∃ e, env.readTokenFile = Except.error e) ∨
      (∃ content e, env.readTokenFile = Except.ok content ∧
        env.parseTokens content = Except.error e) ∨
      (∃ content toks e, env.readTokenFile = Except.ok content ∧
        env.parseTokens content = Except.ok toks ∧
        loadClientSecrets env = Except.error e)) :
    loadSavedCredentialsIfExist env = none ∧
    (env.serviceAccountPath = none →
      (authorize env).result = (authenticate env).result) := by
  have hnone : loadSavedCredentialsIfExist env = none := by
    rcases hfail with ⟨e, he⟩ | ⟨content, e, hc, he⟩ | ⟨content, toks, e, hc, ht, he⟩ <;>
      simp [loadSavedCredentialsIfExist, loadSavedCredentialsIfExistE, *]
  refine ⟨hnone, fun hsa => ?_⟩
  simp only [authorize, hsa, hnone]

/-- Witness for C9: with token.json missing, the load returns null and
authorize falls through to the interactive flow. -/
theorem loadSavedCredentials_failure_null_witness :
    envFresh.readTokenFile = Except.error AuthError.fileNotFound ∧
    loadSavedCredentialsIfExist envFresh = none ∧
    (authorize envFresh).result = (authenticate envFresh).result := by
  refine ⟨rfl, ?_, ?_⟩
  · exact (loadSavedCredentials_failure_null envFresh
      (Or.inl ⟨AuthError.fileNotFound, rfl⟩)).1
  · exact (loadSavedCredentials_failure_null envFresh
      (Or.inl ⟨AuthError.fileNotFound, rfl⟩)).2 rfl

/-- C10: in the interactive flow the token file is written exactly when the
token exchange returned a refresh token, and the written payload consists of
the fields type = authorized_user, client_id, client_secret and
refresh_token; without a refresh token nothing is written. -/
theorem authenticate_token_write (env : AuthEnv) (s : ClientSecrets) (code : String)
    (tokens : Tokens)
    (hs : loadClientSecrets env = Except.ok s)
    (hc : env.authCodeResult = Except.ok code)
    (ht : env.getToken code = Except.ok tokens) :
    (authenticate env).writes =
      (if tokens.refresh_token.isSome then
        [{ type := "authorized_user", client_id := s.client_id,
           client_secret := s.client_secret,
           refresh_token := tokens.refresh_token }]
       else []) := by
  cases htok : tokens.refresh_token with
  | none => simp [authenticate, hs, hc, ht, htok, saveCredentials]
  | some r => simp [authenticate, hs, hc, ht, htok, saveCredentials]

/-- Witness for C10: in the interactive flow a refresh-token response writes
exactly the four-field payload, and a response without a refresh token
writes nothing. -/
theorem authenticate_token_write_witness :
    loadClientSecrets envFresh = Except.ok demoSecrets ∧
    (authenticate envFresh).writes = [tokenPayload] ∧
    (authenticate envNoRefresh).writes = [] := by
  refine ⟨rfl, ?_, ?_⟩
  · have h := authenticate_token_write envFresh demoSecrets "auth-code" demoTokens
      rfl rfl rfl
    rw [h]; decide
  · have h := authenticate_token_write envNoRefresh demoSecrets "auth-code"
      demoTokensNoRefresh rfl rfl rfl
    rw [h]; decide
